import Mathlib

/-!
Verification of the daily production analysis dashboard
(`app/streamlit_app.py`, `app/db.py`).

The pandas/SQL code is shallowly embedded: a DataFrame becomes a `Frame`
(a list of present column names plus a list of rows), melt/groupby/pivot
become explicit list operations, and the query builder becomes a pure
function from the configured filters to a list of WHERE clauses.  Cell values are integers (`average_hourly` an exact rational); a null
cell (pandas `NaN`) is `Option.none`.
Pandas `groupby` sorts its group keys, which is modelled with
`List.insertionSort` over code-point-lexicographic string comparison.
-/

namespace Production

/-- Code-point lexicographic comparison of character lists, matching how
Python (and hence pandas group keys) compares strings. -/
def charListLe : List Char → List Char → Bool
  | [], _ => true
  | _ :: _, [] => false
  | a :: as, b :: bs =>
    if a.toNat < b.toNat then true
    else if b.toNat < a.toNat then false
    else charListLe as bs

/-- String comparison used for sorted group keys. -/
def strLe (a b : String) : Bool := charListLe a.data b.data

/-- `strLe` as a decidable relation for `List.insertionSort`. -/
def strLeR (a b : String) : Prop := strLe a b = true

instance : DecidableRel strLeR := fun a b => instDecidableEqBool (strLe a b) true

/-- Lexicographic comparison on pairs of strings, the order pandas uses
for a two-column `groupby` key. -/
def pairLe (a b : String × String) : Bool :=
  if a.1 = b.1 then strLe a.2 b.2 else strLe a.1 b.1

def pairLeR (a b : String × String) : Prop := pairLe a b = true

instance : DecidableRel pairLeR := fun a b => instDecidableEqBool (pairLe a b) true

/-- One row of the `production_data` table (`db.py`).  The eleven
time-bucket cells are read through `vals`; `none` models SQL null /
pandas `NaN`. -/
structure Row where
  production_date : String
  line : String
  category : String
  style_number : String
  vals : String → Option ℤ
  daily_production_total : Option ℤ
  average_hourly : Option ℚ

/-- A pandas DataFrame: the list of column names actually present plus
the rows.  Column-presence tests (`c in df.columns`, `"x" in df`) read
`cols`. -/
structure Frame where
  cols : List String
  rows : List Row

/-- `hour_cols` from `streamlit_app.py` (`melt_hourly` and
`hourly_detail_grid`): the eleven raw time-bucket column names. -/
def hour_cols : List String :=
  ["t_0830", "t_0930", "t_1000", "t_1130", "t_1330", "t_1430", "t_1530",
   "t_1630", "t_1730", "t_1800", "overtime"]

/-- Python `str.replace("t_", "")`: delete every non-overlapping
occurrence of `t_`, scanning left to right. -/
def stripT : List Char → List Char
  | 't' :: '_' :: rest => stripT rest
  | c :: rest => c :: stripT rest
  | [] => []

/-- `to_label` from `streamlit_app.py`: `overtime ↦ "OT"`, otherwise
strip the `t_` prefix and insert `:` between hour and minute digits
(`f"{t[:2]}:{t[2:]}"`). -/
def to_label (x : String) : String :=
  if x = "overtime" then "OT"
  else
    let t := stripT x.data
    String.mk (t.take 2 ++ (':' :: t.drop 2))

/-- The fixed `TimeBucket` display order (`order` in
`hourly_detail_grid`). -/
def order : List String :=
  ["08:30", "09:30", "10:00", "11:30", "13:30", "14:30", "15:30",
   "16:30", "17:30", "18:00", "OT"]

/-- The bucket columns of the eleven that are present in the frame
(`present = [c for c in hour_cols if c in df.columns]`). -/
def melt_present (df : Frame) : List String :=
  hour_cols.filter (fun c => df.cols.contains c)

/-- One melted tuple produced by `df.melt(...)` in `melt_hourly`. -/
structure MeltRow where
  production_date : String
  line : String
  style_number : String
  time : String
  qty : Option ℤ
deriving DecidableEq

/-- The melted long-form table of `melt_hourly`: one tuple per
(present column, row) pair, stacked column-major as `pd.melt` does. -/
def melt_df (df : Frame) : List MeltRow :=
  (melt_present df).flatMap (fun c => df.rows.map (fun r =>
    ⟨r.production_date, r.line, r.style_number, c, r.vals c⟩))

/-- Group key of `groupby(["production_date", "time_label"])`. -/
def meltKey (x : MeltRow) : String × String :=
  (x.production_date, to_label x.time)

/-- Pandas `sum` over a column with nulls skipped (`skipna`,
`min_count=0`): nulls contribute zero. -/
def qsum (l : List (Option ℤ)) : ℤ := (l.map (fun v => v.getD 0)).sum

/-- One output row of `melt_hourly`. -/
structure AggRow where
  production_date : String
  time_label : String
  qty : ℤ
deriving DecidableEq

/-- The sorted distinct group keys of `melt_hourly`'s `groupby`. -/
def aggKeys (df : Frame) : List (String × String) :=
  List.insertionSort pairLeR (((melt_df df).map meltKey).dedup)

/-- `melt_hourly` from `streamlit_app.py`: melt to long form, map raw
names to labels, sum `qty` grouped by (production_date, time_label);
empty output when none of the eleven columns is present. -/
def melt_hourly (df : Frame) : List AggRow :=
  if (melt_present df).isEmpty then []
  else (aggKeys df).map (fun k =>
    ⟨k.1, k.2, qsum (((melt_df df).filter (fun x => meltKey x == k)).map (fun x => x.qty))⟩)

/-! ### `hourly_detail_grid` -/

/-- The melted long-form table of `hourly_detail_grid`
(`df.melt(id_vars=["style_number"], ...)`): tuples of
(style_number, raw column name, value). -/
def grid_melt (df : Frame) : List (String × String × Option ℤ) :=
  (melt_present df).flatMap (fun c => df.rows.map (fun r =>
    (r.style_number, c, r.vals c)))

/-- Group key of `groupby(["style_number", "time_label"])`. -/
def gridKey (x : String × String × Option ℤ) : String × String :=
  (x.1, to_label x.2.1)

/-- The pivot's row index: the distinct style numbers, sorted as pandas
`groupby`/`pivot` sorts them. -/
def grid_styles (df : Frame) : List String :=
  List.insertionSort strLeR (((grid_melt df).map (fun x => x.1)).dedup)

/-- The distinct time labels occurring in the melted data: the pivot's
raw column set. -/
def grid_labels (df : Frame) : List String :=
  ((grid_melt df).map (fun x => to_label x.2.1)).dedup

/-- `cols = [c for c in order if c in piv.columns]`: the fixed display
order restricted to labels that occur in the data. -/
def grid_cols (df : Frame) : List String :=
  order.filter (fun c => (grid_labels df).contains c)

/-- One displayed row of the per-style grid: the style, its bucket cells
in display order, and the Total column. -/
structure GridRow where
  style_number : String
  cells : List (String × ℤ)
  total : ℤ
deriving DecidableEq

/-- The pivot row for one style: each displayed bucket's summed quantity
(absent (style, label) groups pivot to `NaN` and are `fillna(0)`-ed,
which is also a zero sum), and `Total = piv.sum(axis=1)` computed after
the reindexing. -/
def grid_row (df : Frame) (s : String) : GridRow :=
  let cells := (grid_cols df).map (fun c =>
    (c, qsum (((grid_melt df).filter (fun x => gridKey x == (s, c))).map (fun x => x.2.2))))
  ⟨s, cells, (cells.map (fun p => p.2)).sum⟩

/-- The grid before the optional priority reordering; empty when no
bucket column is present or `style_number` is missing (the function
returns without rendering). -/
def grid_base (df : Frame) : List GridRow :=
  if (melt_present df).isEmpty || !df.cols.contains "style_number" then []
  else (grid_styles df).map (grid_row df)

/-- `top_idx = [s for s in style_order if s in piv.index]`: the
caller-supplied priority styles that exist in the pivot. -/
def grid_top_idx (df : Frame) (style_order : List String) : List String :=
  style_order.filter (fun s => ((grid_base df).map (fun g => g.style_number)).contains s)

/-- `hourly_detail_grid` from `streamlit_app.py`: the pivoted grid,
with rows for styles of the caller-supplied `style_order` moved to the
front (`piv.loc[top_idx]` then the remaining rows) when that list is
non-empty and matches at least one style. -/
def hourly_detail_grid (df : Frame) (style_order : List String) : List GridRow :=
  if style_order.isEmpty then grid_base df
  else if (grid_top_idx df style_order).isEmpty then grid_base df
  else
    ((grid_top_idx df style_order).filterMap
        (fun s => (grid_base df).find? (fun g => g.style_number == s)))
      ++ (grid_base df).filter (fun g => !(grid_top_idx df style_order).contains g.style_number)

/-! ### KPI cards and top-styles summary -/

/-- The total-output KPI of `kpi_cards`: sum of `daily_production_total`
with nulls as zero, or zero when the column is absent. -/
def kpi_total (df : Frame) : ℤ :=
  if df.cols.contains "daily_production_total" then
    (df.rows.map (fun r => r.daily_production_total.getD 0)).sum
  else 0

/-- The average-hourly KPI of `kpi_cards`:
`df["average_hourly"].dropna().mean()` when the column is present
(`none` models the `NaN` that pandas returns for the mean of an empty
series), `0.0` when it is absent. -/
def kpi_avg (df : Frame) : Option ℚ :=
  if df.cols.contains "average_hourly" then
    let v := df.rows.filterMap (fun r => r.average_hourly)
    if v.isEmpty then none else some (v.sum / v.length)
  else some 0

/-- Descending comparison on (style, summed total) pairs used by
`sort_values("daily_production_total", ascending=False)`. -/
def sumGeR (a b : String × ℤ) : Prop := b.2 ≤ a.2

instance : DecidableRel sumGeR := fun a b => Int.decLe b.2 a.2

instance : IsTotal (String × ℤ) sumGeR := ⟨fun a b => le_total b.2 a.2⟩

instance : IsTrans (String × ℤ) sumGeR := ⟨fun _ _ _ hab hbc => le_trans hbc hab⟩

/-- `top_styles_table` from `streamlit_app.py` (its displayed table):
empty when the frame is empty or either required column is missing;
otherwise group by style, sum the daily totals, sort descending and
keep the first ten. -/
def top_styles (df : Frame) : List (String × ℤ) :=
  if df.rows.isEmpty then []
  else if !(df.cols.contains "style_number" && df.cols.contains "daily_production_total") then []
  else
    let styles := List.insertionSort strLeR ((df.rows.map (fun r => r.style_number)).dedup)
    let sums := styles.map (fun s =>
      (s, qsum ((df.rows.filter (fun r => r.style_number == s)).map
        (fun r => r.daily_production_total))))
    (List.insertionSort sumGeR sums).take 10

/-! ### `db.py`: schema validation and the query builder -/

/-- The strict identifier shape `[A-Za-z_][A-Za-z0-9_]*` (ASCII), as a
full-string property of a character list. -/
def validIdentL : List Char → Bool
  | [] => false
  | c :: cs => (c.isAlpha || c == '_') && cs.all (fun d => d.isAlphanum || d == '_')

/-- A string consists exactly of one identifier: the pattern
`^[A-Za-z_][A-Za-z0-9_]*$` with the strict (full-match) reading of `$`. -/
def validIdent (s : String) : Bool := validIdentL s.data

/-- Python `re.match(r"^[A-Za-z_][A-Za-z0-9_]*$", s)` as a Boolean: the
anchored pattern matches `s` itself, or — because Python's `$` also
matches just before a single trailing newline — an identifier followed
by one final `'\n'`. -/
def pyMatchIdent (s : String) : Bool :=
  validIdentL s.data || (s.data.getLast? == some '\n' && validIdentL s.data.dropLast)

/-- `_get_schema` from `db.py` as a function of the configured schema
value (secrets `postgres.schema`, falling back to `PGSCHEMA` with
default `"public"`; `none` or the empty string are falsy and take the
default).  A configured value failing the `re.match` check is replaced
by `"public"`. -/
def get_schema (cfg : Option String) : String :=
  let schema := match cfg with
    | none => "public"
    | some s => if s.isEmpty then "public" else s
  if pyMatchIdent schema then schema else "public"

/-- `_table_ident` from `db.py`. -/
def table_ident (cfg : Option String) : String :=
  get_schema cfg ++ ".production_data"

/-- One clause of the WHERE expression built by `fetch_production`. -/
inductive Clause where
  | dateBetween (dfrom dto : String)
  | lineAny (lines : List String)
  | categoryAny (cats : List String)
  | styleIlike (pat : String)
deriving DecidableEq

/-- Python truthiness of an optional list (`if line:`): `None` and the
empty list are falsy. -/
def truthyList (o : Option (List String)) : Bool :=
  match o with
  | none => false
  | some l => !l.isEmpty

/-- Python truthiness of an optional string (`if style_like:`): `None`
and the empty string are falsy. -/
def truthyStr (o : Option String) : Bool :=
  match o with
  | none => false
  | some s => !s.isEmpty

/-- The `filters` list of `fetch_production`: the mandatory date-range
clause, then one clause per truthy optional filter. -/
def buildClauses (date_from date_to : String) (line category : Option (List String))
    (style_like : Option String) : List Clause :=
  let fs := [Clause.dateBetween date_from date_to]
  let fs := if truthyList line then fs ++ [Clause.lineAny (line.getD [])] else fs
  let fs := if truthyList category then fs ++ [Clause.categoryAny (category.getD [])] else fs
  if truthyStr style_like then fs ++ [Clause.styleIlike (style_like.getD "")] else fs

/-- Is `pat` an infix of `l`? (semantics of SQL `LIKE '%pat%'`). -/
def containsSub (l pat : List Char) : Bool :=
  match l with
  | [] => pat.isEmpty
  | _ :: rest => pat.isPrefixOf l || containsSub rest pat

/-- Case-insensitive substring match, the semantics of
`style_number ILIKE '%pat%'` and of
`.str.contains(pat, case=False)`. -/
def ilikeContains (s pat : String) : Bool :=
  containsSub (s.data.map Char.toLower) (pat.data.map Char.toLower)

/-- Row-level semantics of one WHERE clause. -/
def matchesClause (r : Row) : Clause → Bool
  | .dateBetween a b => strLe a r.production_date && strLe r.production_date b
  | .lineAny ls => ls.contains r.line
  | .categoryAny cs => cs.contains r.category
  | .styleIlike pat => ilikeContains r.style_number pat

/-- ORDER BY production_date, line, style_number. -/
def rowLe (a b : Row) : Bool :=
  if a.production_date ≠ b.production_date then strLe a.production_date b.production_date
  else if a.line ≠ b.line then strLe a.line b.line
  else strLe a.style_number b.style_number

def rowLeR (a b : Row) : Prop := rowLe a b = true

instance : DecidableRel rowLeR := fun a b => instDecidableEqBool (rowLe a b) true

/-- The database as seen by `fetch_production`: whether
`<schema>.production_data` exists, and its rows. -/
structure DB where
  tableExists : Bool
  table : List Row

/-- Executing the SELECT: rows satisfying every clause, ordered. -/
def runQuery (db : DB) (clauses : List Clause) : List Row :=
  List.insertionSort rowLeR (db.table.filter (fun r => clauses.all (matchesClause r)))

/-- The not-found message raised by `fetch_production`. -/
def notFoundMsg (cfg : Option String) : String :=
  "Table not found: " ++ table_ident cfg ++
    ". Import Cloud_SQL_sample_DB.sql or set postgres.schema correctly in secrets."

/-- `fetch_production` from `db.py`: default `date_to` to `date_from`
when falsy, build the WHERE clauses, then raise (`Except.error`) when
the table does not exist in the configured schema — before the data
query runs — and otherwise execute the query. -/
def fetch_production (cfg : Option String) (db : DB) (date_from : String)
    (date_to : Option String) (line category : Option (List String))
    (style_like : Option String) : Except String (List Row) :=
  let dto := match date_to with
    | none => date_from
    | some s => if s.isEmpty then date_from else s
  let clauses := buildClauses date_from dto line category style_like
  if db.tableExists then .ok (runQuery db clauses)
  else .error (notFoundMsg cfg)

/-! ### `main`: orchestration -/

/-- All columns of the `production_data` table, the columns a DataFrame
built from a non-empty fetch carries. -/
def allCols : List String :=
  ["production_date", "line", "category", "style_number"] ++ hour_cols ++
    ["daily_production_total", "average_hourly"]

/-- `pd.DataFrame(rows)` over fetched rows. -/
def frameOfRows (rows : List Row) : Frame := ⟨allCols, rows⟩

/-- The client-side filters `main` applies after fetching: selected
lines, selected categories, then selected styles or — only when none is
selected — the case-insensitive style text search. -/
def applyClientFilters (df : Frame) (sel_lines sel_cats sel_styles : List String)
    (style_like : String) : Frame :=
  let df := if !sel_lines.isEmpty then
      ⟨df.cols, df.rows.filter (fun r => sel_lines.contains r.line)⟩ else df
  let df := if !sel_cats.isEmpty && df.cols.contains "category" then
      ⟨df.cols, df.rows.filter (fun r => sel_cats.contains r.category)⟩ else df
  if !sel_styles.isEmpty then
    ⟨df.cols, df.rows.filter (fun r => sel_styles.contains r.style_number)⟩
  else if !style_like.isEmpty then
    ⟨df.cols, df.rows.filter (fun r => ilikeContains r.style_number style_like)⟩
  else df

/-- What one interaction of `main` renders. -/
inductive Outcome where
  | errorShown (msg : String)
  | noData
  | rendered (total : ℤ) (avg : Option ℚ) (top : List (String × ℤ))
      (trend : List AggRow) (detail : List GridRow)

/-- `main` from `streamlit_app.py` as a pure function: load the date
range (server-side filters are all `None` in this path), show the error
and stop on a raised condition, show the no-data notice on an empty
frame, otherwise apply the client filters and render the KPI cards,
top-styles table, hourly trend and per-style detail grid. -/
def main_model (cfg : Option String) (db : DB) (date_from date_to : String)
    (sel_lines sel_cats sel_styles : List String) (style_like : String) : Outcome :=
  match fetch_production cfg db date_from (some date_to) none none none with
  | .error e => .errorShown e
  | .ok rows =>
    if rows.isEmpty then .noData
    else
      let df := applyClientFilters (frameOfRows rows) sel_lines sel_cats sel_styles style_like
      let top := top_styles df
      .rendered (kpi_total df) (kpi_avg df) top (melt_hourly df)
        (hourly_detail_grid df (top.map (fun p => p.1)))

/-! ### Concrete fixtures used by examples, witnesses and counterexamples -/

/-- The row of the spec's `melt_hourly` worked example:
`{date:2024-01-01, line:"A", style:"S1", t_0830:5, t_0930:3}`. -/
def exRow8 : Row :=
  { production_date := "2024-01-01", line := "A", category := "", style_number := "S1",
    vals := fun c => if c = "t_0830" then some 5 else if c = "t_0930" then some 3 else none,
    daily_production_total := none, average_hourly := none }

/-- The one-row frame of the `melt_hourly` worked example. -/
def exDf8 : Frame :=
  ⟨["production_date", "line", "style_number", "t_0830", "t_0930"], [exRow8]⟩

/-- A row with only a style number and a daily total. -/
def totRow (s : String) (tot : ℤ) : Row :=
  { production_date := "2024-01-01", line := "A", category := "", style_number := s,
    vals := fun _ => none, daily_production_total := some tot, average_hourly := none }

/-- The top-styles worked example: daily totals S1 = 100, S2 = 50, S3 = 200. -/
def exDf9 : Frame := ⟨allCols, [totRow "S1" 100, totRow "S2" 50, totRow "S3" 200]⟩

/-- A frame with none of the eleven time-bucket columns. -/
def noBucketDf : Frame := ⟨["production_date", "line", "style_number"], [exRow8]⟩

/-- An empty frame (no rows). -/
def emptyDf : Frame := ⟨allCols, []⟩

/-- A frame whose `average_hourly` column is present but entirely null. -/
def allNullAvgDf : Frame := ⟨allCols, [totRow "S1" 100]⟩

/-- A frame without the `average_hourly` column. -/
def noAvgColDf : Frame := ⟨["production_date", "style_number"], [totRow "S1" 100]⟩

/-- A row whose `average_hourly` is 3. -/
def avgRow3 : Row :=
  { production_date := "2024-01-01", line := "A", category := "", style_number := "S1",
    vals := fun _ => none, daily_production_total := none, average_hourly := some 3 }

/-- A frame with one non-null `average_hourly` value. -/
def oneAvgDf : Frame := ⟨allCols, [avgRow3]⟩

/-- An empty database whose `production_data` table is missing. -/
def missingTableDB : DB := ⟨false, []⟩

/-- Adjacent-descending check on a list of summed totals. -/
def isSortedDescZ : List ℤ → Bool
  | [] => true
  | [_] => true
  | a :: b :: t => decide (b ≤ a) && isSortedDescZ (b :: t)

end Production

namespace Production

/-! ### Shared helper lemmas -/

lemma sum_map_zero {α : Type} (l : List α) : (l.map (fun _ => (0 : ℤ))).sum = 0 := by
  induction l with
  | nil => rfl
  | cons a l ih => simp [ih]

lemma sum_map_add {α : Type} (f g : α → ℤ) (l : List α) :
    (l.map (fun x => f x + g x)).sum = (l.map f).sum + (l.map g).sum := by
  induction l with
  | nil => rfl
  | cons a l ih => simp [ih]; ring

/-! ### Claim theorems (easy group) -/

/-- Claim C7: if none of the eleven known time-bucket fields is present
as a column, `melt_hourly` returns an empty result and raises no
error. -/
theorem melt_hourly_no_buckets (df : Frame)
    (h : ∀ c ∈ hour_cols, df.cols.contains c = false) : melt_hourly df = [] := by
  have hp : melt_present df = [] := by
    refine List.filter_eq_nil_iff.mpr ?_
    intro c hc
    simpa using h c hc
  simp [melt_hourly, hp]

/-- Witness for C7: a frame carrying only identifier columns melts to
nothing. -/
theorem melt_hourly_no_buckets_witness : melt_hourly noBucketDf = [] :=
  melt_hourly_no_buckets noBucketDf (by decide)

/-- Claim C8: the raw-field-to-label translation is the fixed bijective
mapping (`overtime ↦ OT`, otherwise strip the prefix and insert a
colon, sending the eleven raw names exactly onto the eleven display
labels), and on the worked example row the output is exactly
(2024-01-01, 08:30, 5) and (2024-01-01, 09:30, 3). -/
theorem melt_hourly_labels_example :
    hour_cols.map to_label = order ∧ to_label "overtime" = "OT" ∧
    melt_hourly exDf8 =
      [⟨"2024-01-01", "08:30", 5⟩, ⟨"2024-01-01", "09:30", 3⟩] := by
  decide

/-- Claim C5 (divergence witness): the injection attempt
`"public; DROP TABLE x"` is indeed replaced by `"public"`, but the
configured value `"public\n"` — an identifier followed by a trailing
newline — is kept verbatim because Python's `$` matches just before a
final newline, even though it does not match the strict identifier
pattern. -/
theorem schema_validation_trailing_newline :
    get_schema (some "public; DROP TABLE x") = "public" ∧
    get_schema (some "public\n") = "public\n" ∧
    validIdent "public\n" = false := by
  decide

/-- Claim C6: when the table is missing, `fetch_production` fails with
the not-found error without running the data query, and `main` surfaces
it as a visible message and stops without rendering anything. -/
theorem fetch_missing_table (cfg : Option String) (db : DB) (dfrom : String)
    (dto : Option String) (line category : Option (List String)) (style_like : Option String)
    (dfrom2 dto2 : String) (sl sc ss : List String) (stl : String)
    (h : db.tableExists = false) :
    fetch_production cfg db dfrom dto line category style_like = .error (notFoundMsg cfg) ∧
    main_model cfg db dfrom2 dto2 sl sc ss stl = .errorShown (notFoundMsg cfg) := by
  constructor
  · simp [fetch_production, h]
  · simp [main_model, fetch_production, h]

/-- Witness for C6 at a concrete missing-table database. -/
theorem fetch_missing_table_witness :
    fetch_production none missingTableDB "2024-01-01" none none none none
        = .error (notFoundMsg none) ∧
    main_model none missingTableDB "2024-01-01" "2024-01-02" [] [] [] ""
        = .errorShown (notFoundMsg none) :=
  fetch_missing_table none missingTableDB "2024-01-01" none none none none
    "2024-01-01" "2024-01-02" [] [] [] "" rfl

/-- Claim C10: an optional filter supplied as an empty collection is
treated identically to an absent filter, both in the WHERE-clause list
and in the resulting query. -/
theorem empty_filters_ignored (dfrom dto : String) (dto2 : Option String)
    (cfg : Option String) (db : DB)
    (line category : Option (List String)) (style_like : Option String) :
    buildClauses dfrom dto (some []) category style_like
        = buildClauses dfrom dto none category style_like ∧
    buildClauses dfrom dto line (some []) style_like
        = buildClauses dfrom dto line none style_like ∧
    buildClauses dfrom dto line category (some "")
        = buildClauses dfrom dto line category none ∧
    fetch_production cfg db dfrom dto2 (some []) category style_like
        = fetch_production cfg db dfrom dto2 none category style_like ∧
    fetch_production cfg db dfrom dto2 line (some []) style_like
        = fetch_production cfg db dfrom dto2 line none style_like ∧
    fetch_production cfg db dfrom dto2 line category (some "")
        = fetch_production cfg db dfrom dto2 line category none := by
  refine ⟨rfl, rfl, rfl, rfl, rfl, rfl⟩

/-! ### Claim C4: the average-hourly KPI -/

lemma filterMap_avg (l : List Row) :
    l.filterMap (fun r => r.average_hourly)
      = (l.filter (fun r => r.average_hourly.isSome)).map (fun r => r.average_hourly.getD 0) := by
  induction l with
  | nil => rfl
  | cons r l ih =>
    cases h : r.average_hourly <;>
      simp [List.filterMap_cons, List.filter_cons, h, ih]

/-- Counterexample to claim C4: a frame whose `average_hourly` column is
present but entirely null makes the KPI the mean of an empty series —
pandas `NaN`, modelled `none` — not zero. -/
theorem kpi_avg_all_null_counterexample :
    allNullAvgDf.cols.contains "average_hourly" = true ∧
    allNullAvgDf.rows.isEmpty = false ∧
    allNullAvgDf.rows.all (fun r => r.average_hourly.isNone) = true ∧
    kpi_avg allNullAvgDf ≠ some 0 := by
  decide

/-- Claim C4 as amended: the KPI is the arithmetic mean of
`average_hourly` over exactly the rows with a non-null value, and is
zero when the column is absent; when the column is present but every
value is null it is `NaN` (here `none`), not zero. -/
theorem kpi_avg_spec (df : Frame) :
    (df.cols.contains "average_hourly" = false → kpi_avg df = some 0) ∧
    (df.cols.contains "average_hourly" = true →
      ((∀ r ∈ df.rows, r.average_hourly = none) → kpi_avg df = none) ∧
      ((df.rows.filter (fun r => r.average_hourly.isSome)).map
          (fun r => r.average_hourly.getD 0) ≠ [] →
        kpi_avg df = some
          (((df.rows.filter (fun r => r.average_hourly.isSome)).map
              (fun r => r.average_hourly.getD 0)).sum /
            ((df.rows.filter (fun r => r.average_hourly.isSome)).map
              (fun r => r.average_hourly.getD 0)).length))) := by
  constructor
  · intro h
    have h2 : "average_hourly" ∉ df.cols := by simpa using h
    simp [kpi_avg, h2]
  · intro h
    have h2 : "average_hourly" ∈ df.cols := by simpa using h
    constructor
    · intro hnull
      have hv : df.rows.filterMap (fun r => r.average_hourly) = [] := by
        refine List.filterMap_eq_nil_iff.mpr ?_
        intro r hr
        exact hnull r hr
      simp [kpi_avg, h2, hv, hnull]
    · intro hne
      have hv := filterMap_avg df.rows
      have hex : ¬ ∀ r ∈ df.rows, r.average_hourly = none := by
        intro hall
        apply hne
        have hfil : df.rows.filter (fun r => r.average_hourly.isSome) = [] := by
          refine List.filter_eq_nil_iff.mpr ?_
          intro r hr
          simp [hall r hr]
        simp [hfil]
      simp [kpi_avg, h2, hv, hex]

/-- Witness for C4 (amended): the three cases at concrete frames —
column absent, column all null, one non-null value 3. -/
theorem kpi_avg_spec_witness :
    kpi_avg noAvgColDf = some 0 ∧ kpi_avg allNullAvgDf = none ∧
    kpi_avg oneAvgDf = some
      (((oneAvgDf.rows.filter (fun r => r.average_hourly.isSome)).map
          (fun r => r.average_hourly.getD 0)).sum /
        ((oneAvgDf.rows.filter (fun r => r.average_hourly.isSome)).map
          (fun r => r.average_hourly.getD 0)).length) :=
  ⟨(kpi_avg_spec noAvgColDf).1 (by decide),
   ((kpi_avg_spec allNullAvgDf).2 (by decide)).1 (by decide),
   ((kpi_avg_spec oneAvgDf).2 (by decide)).2 (by decide)⟩

/-! ### Claim C9: the top-styles summary -/

lemma pairwise_isSortedDescZ :
    ∀ l : List (String × ℤ), List.Pairwise sumGeR l →
      isSortedDescZ (l.map (fun p => p.2)) = true := by
  intro l
  induction l with
  | nil => intro _; rfl
  | cons a l ih =>
    intro hp
    rcases List.pairwise_cons.mp hp with ⟨ha, hl⟩
    cases l with
    | nil => rfl
    | cons b t =>
      have hab : b.2 ≤ a.2 := ha b (by simp)
      have ht := ih hl
      simp only [List.map_cons, isSortedDescZ] at ht ⊢
      simp [hab, ht]

/-- Claim C9: the top-styles summary returns at most ten styles, is
empty on an empty input or when a required column is missing, lists the
summed totals in descending order, and on the worked example
{S1 = 100, S2 = 50, S3 = 200} orders the styles [S3, S1, S2]. -/
theorem top_styles_spec :
    (∀ df : Frame,
      (top_styles df).length ≤ 10 ∧
      (df.rows.isEmpty = true → top_styles df = []) ∧
      ((df.cols.contains "style_number" && df.cols.contains "daily_production_total") = false →
        top_styles df = []) ∧
      isSortedDescZ ((top_styles df).map (fun p => p.2)) = true) ∧
    (top_styles exDf9).map (fun p => p.1) = ["S3", "S1", "S2"] := by
  constructor
  · intro df
    refine ⟨?_, ?_, ?_, ?_⟩
    · unfold top_styles
      split
      · simp
      · split
        · simp
        · exact List.length_take_le 10 _
    · intro h
      simp [top_styles, h]
    · intro h
      unfold top_styles
      split
      · rfl
      · split
        · rfl
        · rename_i hcond
          rw [h] at hcond
          exact absurd rfl hcond
    · unfold top_styles
      split
      · rfl
      · split
        · rfl
        · apply pairwise_isSortedDescZ
          have hs := List.sorted_insertionSort sumGeR
            ((List.insertionSort strLeR ((df.rows.map (fun r => r.style_number)).dedup)).map
              (fun s => (s, qsum ((df.rows.filter (fun r => r.style_number == s)).map
                (fun r => r.daily_production_total)))))
          exact List.Pairwise.sublist (List.take_sublist 10 _) hs
  · decide

/-- Witness for C9: the empty-frame and missing-column hypotheses hold
at concrete frames and yield the empty summary. -/
theorem top_styles_spec_witness :
    top_styles emptyDf = [] ∧ top_styles noBucketDf = [] :=
  ⟨(top_styles_spec.1 emptyDf).2.1 (by decide),
   (top_styles_spec.1 noBucketDf).2.2.1 (by decide)⟩

/-! ### Claims C2 and C3: the per-style detail grid -/

lemma contains_iff {l : List String} {s : String} : l.contains s = true ↔ s ∈ l := by
  simp

lemma mem_grid_base {df : Frame} {so : List String} {g : GridRow}
    (h : g ∈ hourly_detail_grid df so) : g ∈ grid_base df := by
  unfold hourly_detail_grid at h
  split at h
  · exact h
  · split at h
    · exact h
    · rcases List.mem_append.mp h with hl | hr
      · rcases List.mem_filterMap.mp hl with ⟨s, _, hfind⟩
        exact List.mem_of_find?_eq_some hfind
      · exact List.mem_of_mem_filter hr

lemma mem_grid_base_row {df : Frame} {g : GridRow} (h : g ∈ grid_base df) :
    ∃ s ∈ grid_styles df, grid_row df s = g := by
  unfold grid_base at h
  split at h
  · simp at h
  · exact List.mem_map.mp h

lemma grid_row_cells_fst (df : Frame) (s : String) :
    (grid_row df s).cells.map (fun p => p.1) = grid_cols df := by
  rw [show (grid_row df s).cells = (grid_cols df).map (fun c =>
      (c, qsum (((grid_melt df).filter (fun x => gridKey x == (s, c))).map (fun x => x.2.2))))
    from rfl, List.map_map]
  show List.map (fun c => c) (grid_cols df) = grid_cols df
  simp

/-- Claim C2: every displayed grid row's cells are exactly the buckets
of the fixed order list that occur in the data (after the reindexing),
and its Total equals the sum of those displayed cells. -/
theorem grid_total_spec (df : Frame) (so : List String) (g : GridRow)
    (h : g ∈ hourly_detail_grid df so) :
    g.cells.map (fun p => p.1) = grid_cols df ∧
    g.total = (g.cells.map (fun p => p.2)).sum := by
  rcases mem_grid_base_row (mem_grid_base h) with ⟨s, _, hrow⟩
  subst hrow
  exact ⟨grid_row_cells_fst df s, rfl⟩

/-- Witness for C2 at the worked-example frame. -/
theorem grid_total_spec_witness :
    (grid_row exDf8 "S1").cells.map (fun p => p.1) = grid_cols exDf8 ∧
    (grid_row exDf8 "S1").total = ((grid_row exDf8 "S1").cells.map (fun p => p.2)).sum :=
  grid_total_spec exDf8 [] (grid_row exDf8 "S1") (by decide)

lemma filterMap_find_styles (piv : List GridRow) :
    ∀ ts : List String, (∀ s ∈ ts, s ∈ piv.map (fun g => g.style_number)) →
      (ts.filterMap (fun s => piv.find? (fun g => g.style_number == s))).map
          (fun g => g.style_number) = ts := by
  intro ts
  induction ts with
  | nil => intro _; rfl
  | cons s ts ih =>
    intro hmem
    have hs : s ∈ piv.map (fun g => g.style_number) := hmem s (by simp)
    rcases List.mem_map.mp hs with ⟨g0, hg0, hstyle⟩
    cases hfind : piv.find? (fun g => g.style_number == s) with
    | none =>
      exfalso
      have := List.find?_eq_none.mp hfind g0 hg0
      simp [hstyle] at this
    | some g =>
      have hgs : g.style_number = s := by
        have := List.find?_some hfind
        simpa using this
      simp only [List.filterMap_cons, hfind, List.map_cons, hgs]
      exact congrArg (s :: ·) (ih (fun t ht => hmem t (by simp [ht])))

/-- Claim C3: the grid's rows are the priority-listed styles that exist
in the data first, in the list's order, followed by the remaining rows
in their existing order; listed styles absent from the grid are skipped
silently (every output row is a genuine grid row, no placeholder). -/
theorem grid_priority_spec (df : Frame) (so : List String) :
    (hourly_detail_grid df so).map (fun g => g.style_number)
      = so.filter (fun s => ((grid_base df).map (fun g => g.style_number)).contains s)
        ++ ((grid_base df).map (fun g => g.style_number)).filter (fun s => !so.contains s) ∧
    ∀ g ∈ hourly_detail_grid df so, g ∈ grid_base df := by
  refine ⟨?_, fun g hg => mem_grid_base hg⟩
  unfold hourly_detail_grid grid_top_idx
  split
  · rename_i h0
    have hso : so = [] := List.isEmpty_iff.mp h0
    subst hso
    simp
  · split
    · rename_i h0 h1
      have htnil := List.isEmpty_iff.mp h1
      have hnoso : ∀ s ∈ so,
          ¬ (((grid_base df).map (fun g => g.style_number)).contains s = true) :=
        List.filter_eq_nil_iff.mp htnil
      rw [htnil, List.nil_append]
      symm
      refine List.filter_eq_self.mpr ?_
      intro s hs
      cases hcon : so.contains s with
      | false => rfl
      | true =>
        exfalso
        exact hnoso s (contains_iff.mp hcon)
          (contains_iff.mpr (by simpa using hs))
    · rename_i h0 h1
      rw [List.map_append]
      congr 1
      · refine filterMap_find_styles (grid_base df) _ ?_
        intro s hsin
        have := (List.mem_filter.mp hsin).2
        exact contains_iff.mp (by simpa using this)
      · rw [List.filter_map]
        apply congrArg
        refine List.filter_congr ?_
        intro g hg
        have hmemmap : g.style_number ∈ (grid_base df).map (fun g => g.style_number) :=
          List.mem_map_of_mem _ hg
        have hconmap : ((grid_base df).map (fun g => g.style_number)).contains
            g.style_number = true := contains_iff.mpr hmemmap
        show (!(so.filter (fun s =>
            ((grid_base df).map (fun g => g.style_number)).contains s)).contains
              g.style_number)
          = !so.contains g.style_number
        cases hcon : so.contains g.style_number with
        | true =>
          have : g.style_number ∈ so.filter
              (fun s => ((grid_base df).map (fun g => g.style_number)).contains s) :=
            List.mem_filter.mpr ⟨contains_iff.mp hcon, hconmap⟩
          rw [contains_iff.mpr this]
        | false =>
          have : g.style_number ∉ so.filter
              (fun s => ((grid_base df).map (fun g => g.style_number)).contains s) := by
            intro hmem2
            have h2 := (List.mem_filter.mp hmem2).1
            rw [← contains_iff] at h2
            rw [hcon] at h2
            exact Bool.false_ne_true h2
          have hcon2 : (so.filter
              (fun s => ((grid_base df).map (fun g => g.style_number)).contains s)).contains
              g.style_number = false := by
            cases hc2 : (so.filter (fun s =>
                ((grid_base df).map (fun g => g.style_number)).contains s)).contains
                  g.style_number with
            | false => rfl
            | true => exact absurd (contains_iff.mp hc2) this
          rw [hcon2]

/-- Witness for C3's membership conjunct at a concrete grid. -/
theorem grid_priority_spec_witness :
    grid_row exDf8 "S1" ∈ grid_base exDf8 :=
  (grid_priority_spec exDf8 ["S1", "ZZ"]).2 (grid_row exDf8 "S1") (by decide)

/-! ### Claim C1: `melt_hourly` is total-preserving -/

lemma sum_ind {κ : Type} [BEq κ] [LawfulBEq κ] (c : κ) (v : ℤ) :
    ∀ ks : List κ, ks.Nodup →
      (ks.map (fun k => if c == k then v else 0)).sum = if c ∈ ks then v else 0 := by
  intro ks
  induction ks with
  | nil => intro _; simp
  | cons k ks ih =>
    intro hnd
    rcases List.nodup_cons.mp hnd with ⟨hk, hnd2⟩
    by_cases hc : c = k
    · subst hc
      have hnot : c ∉ ks := hk
      rw [List.map_cons, List.sum_cons, ih hnd2]
      simp [hnot]
    · have hbeq : (c == k) = false := beq_eq_false_iff_ne.mpr hc
      rw [List.map_cons, List.sum_cons, ih hnd2, hbeq]
      simp [hc]

lemma sum_groups {α κ : Type} [BEq κ] [LawfulBEq κ] (key : α → κ) (f : α → ℤ) (P : κ → Bool) :
    ∀ (m : List α) (ks : List κ), ks.Nodup → (∀ x ∈ m, key x ∈ ks) →
      ((ks.filter P).map (fun k => ((m.filter (fun x => key x == k)).map f).sum)).sum
        = ((m.filter (fun x => P (key x))).map f).sum := by
  intro m
  induction m with
  | nil =>
    intro ks _ _
    simp only [List.filter_nil, List.map_nil, List.sum_nil]
    exact sum_map_zero (ks.filter P)
  | cons x m ih =>
    intro ks hnd hmem
    have hx : key x ∈ ks := hmem x (by simp)
    have hcons : ∀ k : κ, ((x :: m).filter (fun y => key y == k)).map f
        = (if (key x == k) = true then [f x] else []) ++ ((m.filter (fun y => key y == k)).map f) := by
      intro k
      by_cases h : (key x == k) = true
      · simp [List.filter_cons, h]
      · simp [List.filter_cons, h]
    have hstep : ((ks.filter P).map
          (fun k => (((x :: m).filter (fun y => key y == k)).map f).sum)).sum
        = ((ks.filter P).map (fun k => (if key x == k then f x else 0)
            + ((m.filter (fun y => key y == k)).map f).sum)).sum := by
      apply congrArg
      apply List.map_congr_left
      intro k _
      rw [hcons k]
      by_cases h : (key x == k) = true
      · simp [h]
      · simp [h]
    rw [hstep, sum_map_add (fun k => if key x == k then f x else 0)
      (fun k => ((m.filter (fun y => key y == k)).map f).sum) (ks.filter P)]
    rw [ih ks hnd (fun y hy => hmem y (by simp [hy]))]
    rw [sum_ind (key x) (f x) (ks.filter P) (hnd.filter P)]
    have hmemfil : key x ∈ ks.filter P ↔ P (key x) = true := by
      constructor
      · intro h
        exact (List.mem_filter.mp h).2
      · intro h
        exact List.mem_filter.mpr ⟨hx, h⟩
    by_cases hP : P (key x) = true
    · rw [if_pos (hmemfil.mpr hP)]
      simp [List.filter_cons, hP]
    · have hP2 : P (key x) = false := by
        cases h : P (key x)
        · rfl
        · exact absurd h hP
      rw [if_neg (fun hmem2 => hP (hmemfil.mp hmem2))]
      simp [List.filter_cons, hP2]

lemma melt_sum (df : Frame) (d : String) :
    (((melt_df df).filter (fun x => x.production_date == d)).map (fun x => x.qty.getD 0)).sum
      = ((df.rows.filter (fun r => r.production_date == d)).map (fun r =>
          ((melt_present df).map (fun c => (r.vals c).getD 0)).sum)).sum := by
  unfold melt_df
  induction melt_present df with
  | nil =>
    simp only [List.flatMap_nil, List.filter_nil, List.map_nil, List.sum_nil]
    exact (sum_map_zero (df.rows.filter (fun r => r.production_date == d))).symm
  | cons c cs ih =>
    rw [List.flatMap_cons, List.filter_append, List.map_append, List.sum_append]
    rw [List.filter_map, List.map_map]
    have hcomp : (((fun x : MeltRow => x.qty.getD 0) ∘ fun r : Row =>
          ⟨r.production_date, r.line, r.style_number, c, r.vals c⟩))
        = fun r : Row => (r.vals c).getD 0 := rfl
    have hpred : ((fun x : MeltRow => x.production_date == d) ∘ fun r : Row =>
          ⟨r.production_date, r.line, r.style_number, c, r.vals c⟩)
        = fun r : Row => r.production_date == d := rfl
    rw [hcomp, hpred, ih]
    rw [← sum_map_add (fun r => (r.vals c).getD 0)
      (fun r => (cs.map (fun c2 => (r.vals c2).getD 0)).sum)
      (df.rows.filter (fun r => r.production_date == d))]
    apply congrArg
    apply List.map_congr_left
    intro r _
    simp

/-- Claim C1: for every frame and every production date, the summed
quantities that `melt_hourly` reports for that date equal the sum of
all present time-bucket cells over the input rows of that date (nulls
as zero) — the aggregation is total-preserving while discarding the
line and style dimensions. -/
theorem melt_hourly_total_preserving (df : Frame) (d : String) :
    (((melt_hourly df).filter (fun a => a.production_date == d)).map (fun a => a.qty)).sum
      = ((df.rows.filter (fun r => r.production_date == d)).map (fun r =>
          ((melt_present df).map (fun c => (r.vals c).getD 0)).sum)).sum := by
  unfold melt_hourly
  by_cases hp : (melt_present df).isEmpty = true
  · have hnil : melt_present df = [] := List.isEmpty_iff.mp hp
    rw [if_pos hp, hnil]
    simp only [List.filter_nil, List.map_nil, List.sum_nil]
    exact (sum_map_zero (df.rows.filter (fun r => r.production_date == d))).symm
  · rw [if_neg hp]
    rw [List.filter_map, List.map_map]
    have hpred : ((fun a : AggRow => a.production_date == d) ∘ fun k : String × String =>
          ⟨k.1, k.2, qsum (((melt_df df).filter (fun x => meltKey x == k)).map (fun x => x.qty))⟩)
        = fun k : String × String => k.1 == d := rfl
    have hcomp : ((fun a : AggRow => a.qty) ∘ fun k : String × String =>
          ⟨k.1, k.2, qsum (((melt_df df).filter (fun x => meltKey x == k)).map (fun x => x.qty))⟩)
        = fun k : String × String =>
            (((melt_df df).filter (fun x => meltKey x == k)).map (fun x => x.qty.getD 0)).sum := by
      funext k
      show qsum (((melt_df df).filter (fun x => meltKey x == k)).map (fun x => x.qty)) = _
      unfold qsum
      rw [List.map_map]
      rfl
    rw [hpred, hcomp]
    have hperm : List.Perm (aggKeys df) (((melt_df df).map meltKey).dedup) :=
      List.perm_insertionSort pairLeR _
    have hpermf := (hperm.filter (fun k => k.1 == d)).map
      (fun k : String × String =>
        (((melt_df df).filter (fun x => meltKey x == k)).map (fun x => x.qty.getD 0)).sum)
    rw [hpermf.sum_eq]
    rw [sum_groups meltKey (fun x => x.qty.getD 0) (fun k => k.1 == d) (melt_df df)
      (((melt_df df).map meltKey).dedup) (List.nodup_dedup _)
      (fun x hx => List.mem_dedup.mpr (List.mem_map_of_mem meltKey hx))]
    have hfil : ((melt_df df).filter (fun x => (meltKey x).1 == d))
        = (melt_df df).filter (fun x => x.production_date == d) := rfl
    rw [hfil, melt_sum df d]

end Production



